import Mathlib

set_option maxRecDepth 100000

/-!
Shallow embedding of the PropBot MLOps monitoring backend
(src/backend/monitoring/metrics.py, src/backend/monitoring/drift_detector.py,
src/backend/retraining/trigger.py, src/backend/notifications/alerts.py).

Python numbers are modelled as exact rationals; wall-clock fields
(timestamps, uptime) that no verified property reads are omitted; `round(x, n)`
is modelled as round-half-even at n decimal digits over the rationals.
-/

namespace Mlops

/-- Python-style banker rounding of a rational to the nearest integer:
ties go to the even integer. -/
def roundHalfEven (q : ℚ) : ℤ :=
  let f := ⌊q⌋
  let r := q - f
  if r < 1/2 then f
  else if 1/2 < r then f + 1
  else if f % 2 = 0 then f else f + 1

/-- Model of Python `round(q, ndigits)` over the rationals. -/
def pyRound (q : ℚ) (ndigits : ℕ) : ℚ :=
  (roundHalfEven (q * 10 ^ ndigits) : ℚ) / 10 ^ ndigits

/-- Ordered association list acting like a Python dict of counters:
increment an existing key in place, or append a new key with count 1.
This is the behaviour of `metrics['query_types']` updates and of
`collections.Counter` over a list. -/
def bumpCount (m : List (String × ℕ)) (k : String) : List (String × ℕ) :=
  match m with
  | [] => [(k, 1)]
  | (k0, v) :: rest => if k0 = k then (k0, v + 1) :: rest else (k0, v) :: bumpCount rest k

/-- Counter built over a list of keys, in first-occurrence order. -/
def counterOf (keys : List String) : List (String × ℕ) :=
  keys.foldl bumpCount []

/-! ## MetricsCollector (src/backend/monitoring/metrics.py) -/

/-- Arguments of one `MetricsCollector.record_api_call` invocation. -/
structure ApiCall where
  success : Bool
  responseTime : ℚ
  propertiesCount : ℤ
  queryType : String
deriving DecidableEq

/-- Mutable state of `MetricsCollector` (the `self.metrics` dict;
`start_time` omitted, it only feeds the uptime field no claim reads). -/
structure MetricsState where
  apiCalls : ℕ
  successfulResponses : ℕ
  failedResponses : ℕ
  responseTimes : List ℚ
  chromadbQueries : ℕ
  propertiesReturned : List ℤ
  queryTypes : List (String × ℕ)
deriving DecidableEq

/-- State built by `MetricsCollector.__init__`. -/
def initMetrics : MetricsState :=
  { apiCalls := 0, successfulResponses := 0, failedResponses := 0,
    responseTimes := [], chromadbQueries := 0, propertiesReturned := [],
    queryTypes := [] }

/-- Model of `MetricsCollector.record_api_call`. -/
def recordApiCall (st : MetricsState) (c : ApiCall) : MetricsState :=
  { apiCalls := st.apiCalls + 1,
    successfulResponses :=
      if c.success then st.successfulResponses + 1 else st.successfulResponses,
    failedResponses :=
      if c.success then st.failedResponses else st.failedResponses + 1,
    responseTimes := st.responseTimes ++ [c.responseTime],
    chromadbQueries := st.chromadbQueries + 1,
    propertiesReturned := st.propertiesReturned ++ [c.propertiesCount],
    queryTypes := bumpCount st.queryTypes c.queryType }

/-- Snapshot returned by `MetricsCollector.get_metrics` (timestamp and
uptime_seconds omitted: wall clock only). -/
structure MetricsSnapshot where
  totalApiCalls : ℕ
  successfulResponses : ℕ
  failedResponses : ℕ
  successRatePercent : ℚ
  avgResponseTimeSeconds : ℚ
  avgPropertiesReturned : ℚ
  chromadbQueries : ℕ
  queryTypes : List (String × ℕ)
deriving DecidableEq

/-- Model of `MetricsCollector.get_metrics`. -/
def getMetrics (st : MetricsState) : MetricsSnapshot :=
  let avgResponse : ℚ :=
    if st.responseTimes = [] then 0 else st.responseTimes.sum / st.responseTimes.length
  let avgProperties : ℚ :=
    if st.propertiesReturned = [] then 0
    else (st.propertiesReturned.sum : ℚ) / st.propertiesReturned.length
  let successRate : ℚ :=
    if 0 < st.apiCalls then (st.successfulResponses : ℚ) / st.apiCalls * 100 else 0
  { totalApiCalls := st.apiCalls,
    successfulResponses := st.successfulResponses,
    failedResponses := st.failedResponses,
    successRatePercent := pyRound successRate 2,
    avgResponseTimeSeconds := pyRound avgResponse 3,
    avgPropertiesReturned := pyRound avgProperties 1,
    chromadbQueries := st.chromadbQueries,
    queryTypes := st.queryTypes }

/-- A fresh collector fed a sequence of `record_api_call` invocations. -/
def runCalls (calls : List ApiCall) : MetricsState :=
  calls.foldl recordApiCall initMetrics

lemma foldl_recordApiCall_counts (calls : List ApiCall) (st : MetricsState) :
    (calls.foldl recordApiCall st).apiCalls = st.apiCalls + calls.length ∧
    (calls.foldl recordApiCall st).successfulResponses
      = st.successfulResponses + (calls.filter (fun c => c.success)).length ∧
    (calls.foldl recordApiCall st).failedResponses
      = st.failedResponses + (calls.filter (fun c => !c.success)).length ∧
    (calls.foldl recordApiCall st).chromadbQueries
      = st.chromadbQueries + calls.length := by
  induction calls generalizing st with
  | nil => simp
  | cons c rest ih =>
    have h := ih (recordApiCall st c)
    rcases h with ⟨h1, h2, h3, h4⟩
    refine ⟨?_, ?_, ?_, ?_⟩ <;>
      simp only [List.foldl_cons, List.filter_cons] at * <;>
      cases hc : c.success <;>
      simp_all [recordApiCall] <;> omega

lemma runCalls_counts (calls : List ApiCall) :
    (runCalls calls).apiCalls = calls.length ∧
    (runCalls calls).successfulResponses = (calls.filter (fun c => c.success)).length ∧
    (runCalls calls).failedResponses = (calls.filter (fun c => !c.success)).length ∧
    (runCalls calls).chromadbQueries = calls.length := by
  have h := foldl_recordApiCall_counts calls initMetrics
  simpa [runCalls, initMetrics] using h

/-- C10: after every sequence of record calls,
successful + failed = api_calls and chromadb_queries = api_calls. -/
theorem metrics_counter_invariant (calls : List ApiCall) :
    (runCalls calls).successfulResponses + (runCalls calls).failedResponses
      = (runCalls calls).apiCalls ∧
    (runCalls calls).chromadbQueries = (runCalls calls).apiCalls := by
  obtain ⟨h1, h2, h3, h4⟩ := runCalls_counts calls
  constructor
  · rw [h1, h2, h3]
    have := List.length_eq_length_filter_add (l := calls) (fun c => c.success)
    simp only at this
    omega
  · rw [h1, h4]

lemma pyRound_zero (n : ℕ) : pyRound 0 n = 0 := by
  norm_num [pyRound, roundHalfEven]

/-- C2 (counterexample): with 1 success and 2 failures the snapshot field is
`round(100/3, 2) = 33.33`, not the exact value `100*1/(1+2)`. -/
theorem success_rate_exact_formula_fails :
    (getMetrics (runCalls
      [⟨true, 1, 1, "t"⟩, ⟨false, 1, 1, "t"⟩, ⟨false, 1, 1, "t"⟩])).successRatePercent
      ≠ (100 : ℚ) * 1 / (1 + 2) := by
  norm_num [getMetrics, runCalls, recordApiCall, initMetrics, bumpCount,
    pyRound, roundHalfEven]

/-- C2 (amended): for every sequence of record calls with N successes and M
failures, `success_rate_percent` equals `100*N/(N+M)` rounded to 2 decimal
digits when N+M>0, and exactly 0 when N+M=0 (no division by zero). -/
theorem success_rate_percent_spec (calls : List ApiCall) :
    (getMetrics (runCalls calls)).successRatePercent =
      if 0 < (calls.filter (fun c => c.success)).length
            + (calls.filter (fun c => !c.success)).length then
        pyRound (100 * ((calls.filter (fun c => c.success)).length : ℚ) /
          (((calls.filter (fun c => c.success)).length : ℚ)
            + ((calls.filter (fun c => !c.success)).length : ℚ))) 2
      else 0 := by
  obtain ⟨h1, h2, h3, _⟩ := runCalls_counts calls
  have hlen := List.length_eq_length_filter_add (l := calls) (fun c => c.success)
  simp only at hlen
  simp only [getMetrics, h1, h2]
  by_cases hpos : 0 < calls.length
  · rw [if_pos hpos, if_pos (by omega)]
    congr 1
    have hne : ((calls.length : ℚ)) ≠ 0 := by
      exact_mod_cast Nat.pos_iff_ne_zero.mp hpos
    rw [hlen]
    push_cast
    field_simp
    ring
  · rw [if_neg hpos, if_neg (by omega)]
    exact pyRound_zero 2

/-! ## DriftDetector (src/backend/monitoring/drift_detector.py) -/

/-- A query record passed to `DriftDetector.record_query`: a Python dict
whose keys may be absent (`.get` defaults are applied where the source
applies them). The timestamp the source stamps onto the dict is omitted:
no statistic reads it. -/
structure Query where
  query : Option String
  propertiesCount : Option ℤ
  responseTime : Option ℚ
  queryType : Option String
  neighborhood : Option String
deriving DecidableEq

/-- Mean of a list of rationals, 0 on the empty list (the source guards
`np.mean` with `if xs else 0`). -/
def listMeanQ (l : List ℚ) : ℚ :=
  if l = [] then 0 else l.sum / l.length

/-- Statistics dict returned by `DriftDetector._calculate_statistics`.
The source's `std_query_length` is the square root of `varQueryLength`;
it is stored here unsquare-rooted because the square root is irrational
and no verified claim reads the field. -/
structure DriftStats where
  avgQueryLength : ℚ
  varQueryLength : ℚ
  avgPropertiesReturned : ℚ
  avgResponseTime : ℚ
  queryTypeDistribution : List (String × ℕ)
  neighborhoodDistribution : List (String × ℕ)
  totalQueries : ℕ
deriving DecidableEq

/-- Model of `DriftDetector._calculate_statistics`. -/
def calcStatistics (qs : List Query) : DriftStats :=
  let queryLengths : List ℚ := qs.map (fun q => ((q.query.getD "").length : ℚ))
  let propertiesCounts : List ℚ := qs.map (fun q => ((q.propertiesCount.getD 0 : ℤ) : ℚ))
  let responseTimes : List ℚ := qs.map (fun q => q.responseTime.getD 0)
  let queryTypes : List String := qs.map (fun q => q.queryType.getD "unknown")
  let neighborhoods : List String :=
    (qs.filter (fun q => q.neighborhood.isSome)).map (fun q => q.neighborhood.getD "unknown")
  let meanQL := listMeanQ queryLengths
  { avgQueryLength := meanQL,
    varQueryLength := listMeanQ (queryLengths.map (fun x => (x - meanQL) ^ 2)),
    avgPropertiesReturned := listMeanQ propertiesCounts,
    avgResponseTime := listMeanQ responseTimes,
    queryTypeDistribution := counterOf queryTypes,
    neighborhoodDistribution := counterOf neighborhoods,
    totalQueries := qs.length }

/-- Dict lookup with default 0, as `norm_dist.get(key, 0)` over raw counts. -/
def lookupCount (d : List (String × ℕ)) (k : String) : ℕ :=
  match d with
  | [] => 0
  | (k0, v) :: rest => if k0 = k then v else lookupCount rest k

/-- Key set of `set(d1) | set(d2)` as a duplicate-free list. Python
iterates a set, whose order is arbitrary; the summed value below does not
depend on the enumeration order. -/
def unionKeys : List String → List String
  | [] => []
  | k :: rest => if k ∈ unionKeys rest then unionKeys rest else k :: unionKeys rest

/-- Sum of the counts of a distribution dict (`sum(dist.values())`). -/
def distTotal (d : List (String × ℕ)) : ℕ :=
  (d.map Prod.snd).sum

/-- Model of `DriftDetector._distribution_difference`: total-variation distance
between the two normalized count dicts, 0 if either has total 0. -/
def distributionDifference (d1 d2 : List (String × ℕ)) : ℚ :=
  let total1 := distTotal d1
  let total2 := distTotal d2
  if total1 = 0 ∨ total2 = 0 then 0
  else
    let p := fun k => (lookupCount d1 k : ℚ) / total1
    let q := fun k => (lookupCount d2 k : ℚ) / total2
    let allKeys := unionKeys (d1.map Prod.fst ++ d2.map Prod.fst)
    ((allKeys.map fun k => |p k - q k|).sum) / 2

/-- Loop body of the numerical-feature comparison in
`DriftDetector._calculate_drift_score`: append the capped relative
difference when the baseline value is positive, else skip the feature. -/
def numericStep (acc : List ℚ) (bc : ℚ × ℚ) : List ℚ :=
  if 0 < bc.1 then acc ++ [min (|bc.2 - bc.1| / bc.1) 1] else acc

/-- Model of `DriftDetector._calculate_drift_score`. -/
def calcDriftScore (baseline current : DriftStats) : ℚ :=
  let numPairs : List (ℚ × ℚ) :=
    [(baseline.avgQueryLength, current.avgQueryLength),
     (baseline.avgPropertiesReturned, current.avgPropertiesReturned),
     (baseline.avgResponseTime, current.avgResponseTime)]
  let scores : List ℚ := numPairs.foldl numericStep []
  let scores : List ℚ :=
    if baseline.queryTypeDistribution ≠ [] ∧ current.queryTypeDistribution ≠ [] then
      scores ++ [distributionDifference baseline.queryTypeDistribution
                   current.queryTypeDistribution]
    else scores
  if scores = [] then 0 else scores.sum / scores.length

/-- Report dict built by `DriftDetector.detect_drift` when enough data
exists (timestamp omitted: wall clock only). -/
structure DriftReport where
  driftDetected : Bool
  driftScore : ℚ
  threshold : ℚ
  baselineStats : DriftStats
  currentStats : DriftStats
deriving DecidableEq

/-- Return value of `DriftDetector.detect_drift`: either the tagged
insufficient-data dict (which carries `drift_detected: False` and the
sample count) or a full report. -/
inductive DetectResult where
  | insufficient (samples : ℕ)
  | report (r : DriftReport)
deriving DecidableEq

/-- Value of the `drift_detected` key of either result dict. -/
def DetectResult.driftDetectedField : DetectResult → Bool
  | .insufficient _ => false
  | .report r => r.driftDetected

/-- Total-variation component the score of a report was built from
(0 for an insufficient-data result). -/
def DetectResult.typeHistogramComponent : DetectResult → ℚ
  | .insufficient _ => 0
  | .report r => distributionDifference r.baselineStats.queryTypeDistribution
      r.currentStats.queryTypeDistribution

/-- Mutable state of a `DriftDetector`. -/
structure DriftState where
  windowSize : ℕ
  driftThreshold : ℚ
  recentQueries : List Query
  baselineStats : Option DriftStats
  driftHistory : List DriftReport
deriving DecidableEq

/-- The detector as constructed at module scope:
`DriftDetector(window_size=100, drift_threshold=0.3)`. -/
def initDetector : DriftState :=
  { windowSize := 100, driftThreshold := 3/10, recentQueries := [],
    baselineStats := none, driftHistory := [] }

/-- Append one element to a bounded buffer, keeping only the newest `cap`
elements when the capacity is exceeded. This is the
`buf.append(x); if len(buf) > cap: buf = buf[-cap:]` pattern shared by the
drift window and the notification history. -/
def appendTrim {α : Type} (cap : ℕ) (h : List α) (x : α) : List α :=
  let h2 := h ++ [x]
  if cap < h2.length then h2.drop (h2.length - cap) else h2

/-- Model of `DriftDetector.record_query`. -/
def recordQuery (st : DriftState) (q : Query) : DriftState :=
  let recent := appendTrim st.windowSize st.recentQueries q
  let baseline :=
    if st.baselineStats = none ∧ 50 ≤ recent.length then some (calcStatistics recent)
    else st.baselineStats
  { st with recentQueries := recent, baselineStats := baseline }

/-- Model of `DriftDetector.detect_drift`, returning both the result dict and the
updated state (baseline backfill and drift-history append). -/
def detectDrift (st : DriftState) : DetectResult × DriftState :=
  if st.recentQueries.length < 50 then
    (.insufficient st.recentQueries.length, st)
  else
    let baseline :=
      match st.baselineStats with
      | some b => b
      | none => calcStatistics (st.recentQueries.take 50)
    let current :=
      calcStatistics (st.recentQueries.drop (st.recentQueries.length - 50))
    let score := calcDriftScore baseline current
    let detected := st.driftThreshold < score
    let r : DriftReport :=
      { driftDetected := detected, driftScore := pyRound score 3,
        threshold := st.driftThreshold, baselineStats := baseline,
        currentStats := current }
    let st1 := { st with baselineStats := some baseline }
    (.report r,
      if detected then { st1 with driftHistory := st1.driftHistory ++ [r] } else st1)

/-- The module detector fed a sequence of `record_query` calls. -/
def runRecords (qs : List Query) : DriftState :=
  qs.foldl recordQuery initDetector

lemma appendTrim_eq_drop {α : Type} (cap : ℕ) (h : List α) (x : α) :
    appendTrim cap h x = (h ++ [x]).drop ((h ++ [x]).length - cap) := by
  simp only [appendTrim]
  by_cases hc : cap < (h ++ [x]).length
  · rw [if_pos hc]
  · rw [if_neg hc, Nat.sub_eq_zero_of_le (Nat.le_of_not_lt hc), List.drop_zero]

lemma appendTrim_of_fits {α : Type} (cap : ℕ) (h : List α) (x : α)
    (hfit : (h ++ [x]).length ≤ cap) : appendTrim cap h x = h ++ [x] := by
  simp only [appendTrim]
  rw [if_neg (Nat.not_lt.mpr hfit)]

lemma appendTrim_length_le {α : Type} (cap : ℕ) (h : List α) (x : α)
    (hh : h.length ≤ cap) : (appendTrim cap h x).length ≤ cap := by
  rw [appendTrim_eq_drop, List.length_drop]
  simp only [List.length_append, List.length_cons, List.length_nil]
  omega

/-- Folding bounded appends from a buffer within capacity leaves exactly the
newest `cap` elements of the concatenation. -/
lemma foldl_appendTrim {α : Type} (cap : ℕ) (xs : List α)
    (h : List α) (hh : h.length ≤ cap) :
    xs.foldl (appendTrim cap) h = (h ++ xs).drop ((h ++ xs).length - cap) := by
  induction xs generalizing h with
  | nil =>
    have h0 : h.length - cap = 0 := Nat.sub_eq_zero_of_le hh
    simp [h0]
  | cons x rest ih =>
    rw [List.foldl_cons, ih _ (appendTrim_length_le cap h x hh), appendTrim_eq_drop,
      ← List.drop_append_of_le_length (Nat.sub_le _ _), List.drop_drop]
    simp only [List.append_assoc, List.singleton_append]
    congr 1
    simp only [List.length_drop, List.length_append, List.length_cons, List.length_nil]
    omega

/-- One public operation on a detector, used to state that later calls of
either kind leave the frozen baseline untouched. -/
inductive DetectorOp where
  | record (q : Query)
  | detect
deriving DecidableEq

/-- Effect of one public detector operation on the state. -/
def detectorStep (st : DriftState) (op : DetectorOp) : DriftState :=
  match op with
  | .record q => recordQuery st q
  | .detect => (detectDrift st).2

lemma recordQuery_baseline_preserved (st : DriftState) (q : Query) (b : DriftStats)
    (h : st.baselineStats = some b) : (recordQuery st q).baselineStats = some b := by
  simp [recordQuery, h]

lemma detectDrift_baseline_preserved (st : DriftState) (b : DriftStats)
    (h : st.baselineStats = some b) : (detectDrift st).2.baselineStats = some b := by
  by_cases hl : st.recentQueries.length < 50
  · simp [detectDrift, hl, h]
  · simp only [detectDrift, if_neg hl, h]
    split <;> rfl

lemma foldl_recordQuery_baseline_preserved (qs : List Query) (st : DriftState)
    (b : DriftStats) (h : st.baselineStats = some b) :
    (qs.foldl recordQuery st).baselineStats = some b := by
  induction qs generalizing st with
  | nil => exact h
  | cons q rest ih => exact ih _ (recordQuery_baseline_preserved st q b h)

lemma foldl_detectorStep_baseline_preserved (ops : List DetectorOp) (st : DriftState)
    (b : DriftStats) (h : st.baselineStats = some b) :
    (ops.foldl detectorStep st).baselineStats = some b := by
  induction ops generalizing st with
  | nil => exact h
  | cons op rest ih =>
    refine ih _ ?_
    cases op with
    | record q => exact recordQuery_baseline_preserved st q b h
    | detect => exact detectDrift_baseline_preserved st b h

lemma runRecords_lt_50 (qs : List Query) (h : qs.length < 50) :
    runRecords qs =
      { windowSize := 100, driftThreshold := 3/10, recentQueries := qs,
        baselineStats := none, driftHistory := [] } := by
  induction qs using List.reverseRecOn with
  | nil => rfl
  | append_singleton xs x ih =>
    have hx : xs.length < 50 := by simp at h; omega
    rw [runRecords, List.foldl_append, ← runRecords, ih hx]
    have h' : xs.length + 1 < 50 := by simp at h; omega
    have hfits : appendTrim 100 xs x = xs ++ [x] :=
      appendTrim_of_fits 100 xs x (by simp; omega)
    have hbase : ¬ ((none : Option DriftStats) = none ∧ 50 ≤ (xs ++ [x]).length) := by
      simp
      omega
    simp [recordQuery, hfits, hbase]
    omega

lemma runRecords_eq_50 (qs : List Query) (h : qs.length = 50) :
    runRecords qs =
      { windowSize := 100, driftThreshold := 3/10, recentQueries := qs,
        baselineStats := some (calcStatistics qs), driftHistory := [] } := by
  induction qs using List.reverseRecOn with
  | nil => simp at h
  | append_singleton xs x _ =>
    have hx : xs.length = 49 := by simp at h; omega
    rw [runRecords, List.foldl_append, ← runRecords, runRecords_lt_50 xs (by omega)]
    have hfits : appendTrim 100 xs x = xs ++ [x] :=
      appendTrim_of_fits 100 xs x (by simp; omega)
    have hbase : ((none : Option DriftStats) = none ∧ 50 ≤ (xs ++ [x]).length) := by
      simp
      omega
    simp [recordQuery, hfits, hbase]
    omega

/-- C3: feeding 200 records, the baseline is the one frozen at record 50,
computed from the first 50 records, and no later record or detect call
changes it. -/
theorem baseline_set_once (qs : List Query) (h : qs.length = 200) :
    (runRecords qs).baselineStats = (runRecords (qs.take 50)).baselineStats ∧
    (runRecords (qs.take 50)).baselineStats = some (calcStatistics (qs.take 50)) ∧
    ∀ ops : List DetectorOp,
      (ops.foldl detectorStep (runRecords qs)).baselineStats
        = some (calcStatistics (qs.take 50)) := by
  have htake : (qs.take 50).length = 50 := by simp [h]
  have h50 := runRecords_eq_50 (qs.take 50) htake
  have hrun : runRecords qs = (qs.drop 50).foldl recordQuery (runRecords (qs.take 50)) := by
    conv_lhs => rw [(List.take_append_drop 50 qs).symm]
    rw [runRecords, List.foldl_append, ← runRecords]
  have hb : (runRecords qs).baselineStats = some (calcStatistics (qs.take 50)) := by
    rw [hrun]
    exact foldl_recordQuery_baseline_preserved _ _ _ (by rw [h50])
  refine ⟨?_, ?_, fun ops => ?_⟩
  · rw [hb, h50]
  · rw [h50]
  · exact foldl_detectorStep_baseline_preserved ops _ _ hb

/-- Witness for C3 at a concrete 200-record input. -/
theorem baseline_set_once_witness :
    (List.replicate 200 (⟨none, none, none, none, none⟩ : Query)).length = 200 ∧
    (runRecords (List.replicate 200 ⟨none, none, none, none, none⟩)).baselineStats
      = (runRecords ((List.replicate 200
          (⟨none, none, none, none, none⟩ : Query)).take 50)).baselineStats :=
  ⟨by simp,
    (baseline_set_once (List.replicate 200 ⟨none, none, none, none, none⟩)
      (by simp)).1⟩

/-- C8: with fewer than 50 records, detect returns the tagged
insufficient-data result (drift_detected false, no error); with exactly 50
it returns a full report carrying the configured threshold. -/
theorem detect_insufficient_vs_report (st : DriftState) :
    (st.recentQueries.length < 50 →
      (detectDrift st).1 = .insufficient st.recentQueries.length ∧
      (detectDrift st).1.driftDetectedField = false) ∧
    (st.recentQueries.length = 50 →
      ∃ r : DriftReport, (detectDrift st).1 = .report r ∧
        r.threshold = st.driftThreshold ∧
        r.currentStats = calcStatistics
          (st.recentQueries.drop (st.recentQueries.length - 50))) := by
  constructor
  · intro h
    simp [detectDrift, h, DetectResult.driftDetectedField]
  · intro h
    have h2 : ¬ st.recentQueries.length < 50 := by omega
    unfold detectDrift
    rw [if_neg h2]
    exact ⟨_, rfl, rfl, rfl⟩

/-- Witness for C8 at concrete states with 49 and 50 records. -/
theorem detect_insufficient_vs_report_witness :
    ((detectDrift
        { windowSize := 100, driftThreshold := 3/10,
          recentQueries := List.replicate 49 ⟨none, none, none, none, none⟩,
          baselineStats := none, driftHistory := [] }).1.driftDetectedField = false) ∧
    (∃ r : DriftReport,
      (detectDrift
        { windowSize := 100, driftThreshold := 3/10,
          recentQueries := List.replicate 50 ⟨none, none, none, none, none⟩,
          baselineStats := none, driftHistory := [] }).1 = .report r ∧
        r.threshold = 3/10) := by
  constructor
  · exact ((detect_insufficient_vs_report
      { windowSize := 100, driftThreshold := 3/10,
        recentQueries := List.replicate 49 ⟨none, none, none, none, none⟩,
        baselineStats := none, driftHistory := [] }).1 (by simp)).2
  · obtain ⟨r, hr, ht, _⟩ := (detect_insufficient_vs_report
      { windowSize := 100, driftThreshold := 3/10,
        recentQueries := List.replicate 50 ⟨none, none, none, none, none⟩,
        baselineStats := none, driftHistory := [] }).2 (by simp)
    exact ⟨r, hr, ht⟩

lemma distributionDifference_eq_zero (d1 d2 : List (String × ℕ))
    (h : ∀ k : String, (lookupCount d1 k : ℚ) / distTotal d1
        = (lookupCount d2 k : ℚ) / distTotal d2) :
    distributionDifference d1 d2 = 0 := by
  by_cases h0 : distTotal d1 = 0 ∨ distTotal d2 = 0
  · simp [distributionDifference, h0]
  · simp only [distributionDifference, if_neg h0]
    rw [List.sum_eq_zero, zero_div]
    intro x hx
    obtain ⟨k, _, rfl⟩ := List.mem_map.mp hx
    rw [h k, sub_self, abs_zero]

lemma numeric_scores_all_zero (pairs : List (ℚ × ℚ)) (acc : List ℚ)
    (hp : ∀ p ∈ pairs, p.1 = p.2) (ha : ∀ x ∈ acc, x = 0) :
    ∀ x ∈ pairs.foldl numericStep acc, x = 0 := by
  induction pairs generalizing acc with
  | nil => exact ha
  | cons p rest ih =>
    intro x hx
    rw [List.foldl_cons] at hx
    refine ih _ (fun r hr => hp r (by simp [hr])) ?_ x hx
    intro y hy
    unfold numericStep at hy
    by_cases hpos : 0 < p.1
    · rw [if_pos hpos] at hy
      rcases List.mem_append.mp hy with hmem | hmem
      · exact ha y hmem
      · simp only [List.mem_singleton] at hmem
        subst hmem
        rw [← hp p (by simp), sub_self, abs_zero, zero_div]
        exact min_eq_left zero_le_one
    · rw [if_neg hpos] at hy
      exact ha y hy

lemma meanOrZero_eq_zero (l : List ℚ) (h : ∀ x ∈ l, x = 0) :
    (if l = [] then (0:ℚ) else l.sum / l.length) = 0 := by
  split
  · rfl
  · rw [List.sum_eq_zero h, zero_div]

/-- C1 (counterexample): two one-record sets with identical mean query
length, mean result count and mean latency, but different query types,
give drift score 1/3, not 0. -/
theorem drift_score_not_mean_invariant :
    ((calcStatistics [⟨none, some 1, some 1, some "search", none⟩]).avgQueryLength
      = (calcStatistics [⟨none, some 1, some 1, some "price_check", none⟩]).avgQueryLength) ∧
    ((calcStatistics [⟨none, some 1, some 1, some "search", none⟩]).avgPropertiesReturned
      = (calcStatistics [⟨none, some 1, some 1, some "price_check", none⟩]).avgPropertiesReturned) ∧
    ((calcStatistics [⟨none, some 1, some 1, some "search", none⟩]).avgResponseTime
      = (calcStatistics [⟨none, some 1, some 1, some "price_check", none⟩]).avgResponseTime) ∧
    calcDriftScore (calcStatistics [⟨none, some 1, some 1, some "search", none⟩])
      (calcStatistics [⟨none, some 1, some 1, some "price_check", none⟩]) ≠ 0 := by
  refine ⟨?_, ?_, ?_, ?_⟩ <;>
    norm_num [calcStatistics, calcDriftScore, distributionDifference, listMeanQ,
      counterOf, bumpCount, lookupCount, distTotal, unionKeys, numericStep,
      (by simp : ¬ ("search" = "price_check")),
      (by simp : ¬ ("price_check" = "search"))]
  simp

/-- C1 (amended): if the two record sets additionally have identical
normalized query-type distributions, the drift score between their
statistics is 0. -/
theorem drift_score_zero_of_equal_means_and_types (qs1 qs2 : List Query)
    (h1 : (calcStatistics qs1).avgQueryLength = (calcStatistics qs2).avgQueryLength)
    (h2 : (calcStatistics qs1).avgPropertiesReturned
        = (calcStatistics qs2).avgPropertiesReturned)
    (h3 : (calcStatistics qs1).avgResponseTime = (calcStatistics qs2).avgResponseTime)
    (h4 : ∀ k : String,
      (lookupCount (calcStatistics qs1).queryTypeDistribution k : ℚ)
          / distTotal (calcStatistics qs1).queryTypeDistribution
        = (lookupCount (calcStatistics qs2).queryTypeDistribution k : ℚ)
          / distTotal (calcStatistics qs2).queryTypeDistribution) :
    calcDriftScore (calcStatistics qs1) (calcStatistics qs2) = 0 := by
  unfold calcDriftScore
  apply meanOrZero_eq_zero
  intro x hx
  have hp : ∀ p ∈ [((calcStatistics qs1).avgQueryLength, (calcStatistics qs2).avgQueryLength),
      ((calcStatistics qs1).avgPropertiesReturned, (calcStatistics qs2).avgPropertiesReturned),
      ((calcStatistics qs1).avgResponseTime, (calcStatistics qs2).avgResponseTime)],
      p.1 = p.2 := by
    intro p hmem
    simp only [List.mem_cons, List.not_mem_nil, or_false] at hmem
    rcases hmem with rfl | rfl | rfl
    exacts [h1, h2, h3]
  by_cases hq : (calcStatistics qs1).queryTypeDistribution ≠ []
      ∧ (calcStatistics qs2).queryTypeDistribution ≠ []
  · rw [if_pos hq] at hx
    rcases List.mem_append.mp hx with hmem | hmem
    · exact numeric_scores_all_zero _ _ hp (by simp) x hmem
    · simp only [List.mem_singleton] at hmem
      subst hmem
      exact distributionDifference_eq_zero _ _ h4
  · rw [if_neg hq] at hx
    exact numeric_scores_all_zero _ _ hp (by simp) x hx

/-- Witness for the amended C1 at two concrete equal record sets. -/
theorem drift_score_zero_witness :
    calcDriftScore (calcStatistics [⟨none, none, none, some "search", none⟩])
      (calcStatistics [⟨none, none, none, some "search", none⟩]) = 0 :=
  drift_score_zero_of_equal_means_and_types _ _ rfl rfl rfl (fun _ => rfl)

lemma foldl_bumpCount_replicate (n : ℕ) (ty : String) (k : ℕ) :
    (List.replicate n ty).foldl bumpCount [(ty, k)] = [(ty, k + n)] := by
  induction n generalizing k with
  | zero => rfl
  | succ m ih =>
    rw [List.replicate_succ, List.foldl_cons]
    have hb : bumpCount [(ty, k)] ty = [(ty, k + 1)] := by simp [bumpCount]
    rw [hb, ih]
    have : k + 1 + m = k + (m + 1) := by omega
    rw [this]

lemma counterOf_replicate (n : ℕ) (ty : String) (hn : 0 < n) :
    counterOf (List.replicate n ty) = [(ty, n)] := by
  obtain ⟨m, rfl⟩ : ∃ m, n = m + 1 := ⟨n - 1, by omega⟩
  unfold counterOf
  rw [List.replicate_succ, List.foldl_cons]
  have hb : bumpCount [] ty = [(ty, 1)] := rfl
  rw [hb, foldl_bumpCount_replicate]
  rw [Nat.add_comm]

lemma calcStatistics_replicate_typeonly (n : ℕ) (hn : 0 < n) (ty : String) :
    calcStatistics (List.replicate n (⟨none, none, none, some ty, none⟩ : Query)) =
      { avgQueryLength := 0, varQueryLength := 0, avgPropertiesReturned := 0,
        avgResponseTime := 0, queryTypeDistribution := [(ty, n)],
        neighborhoodDistribution := [], totalQueries := n } := by
  unfold calcStatistics
  simp [List.map_replicate, listMeanQ, List.sum_replicate,
    counterOf_replicate n ty hn, (show counterOf [] = [] from rfl)]

lemma foldl_recordQuery_config (qs : List Query) (st : DriftState) :
    (qs.foldl recordQuery st).windowSize = st.windowSize ∧
    (qs.foldl recordQuery st).driftThreshold = st.driftThreshold := by
  induction qs generalizing st with
  | nil => exact ⟨rfl, rfl⟩
  | cons q rest ih => exact ih (recordQuery st q)

lemma foldl_recordQuery_recent (qs : List Query) (st : DriftState) :
    (qs.foldl recordQuery st).recentQueries
      = qs.foldl (appendTrim st.windowSize) st.recentQueries := by
  induction qs generalizing st with
  | nil => rfl
  | cons q rest ih => exact ih (recordQuery st q)

lemma detectDrift_report_of_some (st : DriftState) (b : DriftStats)
    (hlen : ¬ st.recentQueries.length < 50) (hb : st.baselineStats = some b) :
    (detectDrift st).1 = .report
      { driftDetected := decide (st.driftThreshold <
          calcDriftScore b (calcStatistics
            (st.recentQueries.drop (st.recentQueries.length - 50)))),
        driftScore := pyRound (calcDriftScore b (calcStatistics
            (st.recentQueries.drop (st.recentQueries.length - 50)))) 3,
        threshold := st.driftThreshold,
        baselineStats := b,
        currentStats := calcStatistics
          (st.recentQueries.drop (st.recentQueries.length - 50)) } := by
  unfold detectDrift
  rw [if_neg hlen, hb]

/-- The two record shapes of the C6 scenario: a dict carrying only a
query_type key. -/
def searchOnlyQuery : Query := ⟨none, none, none, some "search", none⟩

/-- Companion record of `searchOnlyQuery` with query_type "price_check". -/
def priceOnlyQuery : Query := ⟨none, none, none, some "price_check", none⟩

/-- C6: after 60 records of query_type "search" followed by 50 of
query_type "price_check", detect reports drift, and the query-type
histogram component of that report's score is exactly 1 (the
total-variation distance between the disjoint type distributions). -/
theorem drift_detected_on_full_type_shift :
    ((detectDrift (runRecords (List.replicate 60 searchOnlyQuery
        ++ List.replicate 50 priceOnlyQuery))).1).driftDetectedField = true ∧
    ((detectDrift (runRecords (List.replicate 60 searchOnlyQuery
        ++ List.replicate 50 priceOnlyQuery))).1).typeHistogramComponent = 1 := by
  have hqslen : (List.replicate 60 searchOnlyQuery
      ++ List.replicate 50 priceOnlyQuery).length = 110 := by simp
  have hrec : (runRecords (List.replicate 60 searchOnlyQuery
      ++ List.replicate 50 priceOnlyQuery)).recentQueries
      = List.replicate 50 searchOnlyQuery ++ List.replicate 50 priceOnlyQuery := by
    rw [runRecords, foldl_recordQuery_recent]
    have hw : initDetector.windowSize = 100 := rfl
    have hr : initDetector.recentQueries = [] := rfl
    rw [hw, hr, foldl_appendTrim 100 _ [] (by simp), List.nil_append, hqslen]
    norm_num
    rw [List.drop_append_of_le_length (by norm_num), List.drop_replicate]
  have hbase : (runRecords (List.replicate 60 searchOnlyQuery
      ++ List.replicate 50 priceOnlyQuery)).baselineStats
      = some (calcStatistics (List.replicate 50 searchOnlyQuery)) := by
    have hsplit : List.replicate 60 searchOnlyQuery ++ List.replicate 50 priceOnlyQuery
        = List.replicate 50 searchOnlyQuery
          ++ (List.replicate 10 searchOnlyQuery ++ List.replicate 50 priceOnlyQuery) := by
      rw [← List.append_assoc, ← List.replicate_add]
    rw [hsplit, runRecords, List.foldl_append, ← runRecords]
    exact foldl_recordQuery_baseline_preserved _ _ _
      (by rw [runRecords_eq_50 _ (by simp)])
  have hlen100 : ¬ (runRecords (List.replicate 60 searchOnlyQuery
      ++ List.replicate 50 priceOnlyQuery)).recentQueries.length < 50 := by
    rw [hrec]
    simp
  have hth : (runRecords (List.replicate 60 searchOnlyQuery
      ++ List.replicate 50 priceOnlyQuery)).driftThreshold = 3/10 :=
    (foldl_recordQuery_config _ initDetector).2
  rw [detectDrift_report_of_some _ _ hlen100 hbase, hrec, hth]
  have hdrop : (List.replicate 50 searchOnlyQuery ++ List.replicate 50 priceOnlyQuery).drop
      ((List.replicate 50 searchOnlyQuery ++ List.replicate 50 priceOnlyQuery).length - 50)
      = List.replicate 50 priceOnlyQuery := by
    rw [List.length_append, List.length_replicate, List.length_replicate]
    norm_num
  rw [hdrop]
  rw [show (List.replicate 50 searchOnlyQuery)
      = List.replicate 50 (⟨none, none, none, some "search", none⟩ : Query) from rfl,
    show (List.replicate 50 priceOnlyQuery)
      = List.replicate 50 (⟨none, none, none, some "price_check", none⟩ : Query) from rfl,
    calcStatistics_replicate_typeonly 50 (by norm_num) "search",
    calcStatistics_replicate_typeonly 50 (by norm_num) "price_check"]
  simp only [DetectResult.driftDetectedField, DetectResult.typeHistogramComponent]
  constructor
  · rw [decide_eq_true_eq]
    norm_num [calcDriftScore, numericStep, distributionDifference, lookupCount,
      distTotal, unionKeys,
      (by simp : ¬ ("search" = "price_check")),
      (by simp : ¬ ("price_check" = "search"))]
  · norm_num [distributionDifference, lookupCount, distTotal, unionKeys,
      (by simp : ¬ ("search" = "price_check")),
      (by simp : ¬ ("price_check" = "search"))]

/-! ## RetrainingTrigger (src/backend/retraining/trigger.py) -/

/-- Drift information as read by `evaluate_retraining_need`: the values of
the `drift_detected` and `drift_score` keys (`.get` default 0 for the
score already applied). -/
structure DriftInput where
  driftDetected : Bool
  driftScore : ℚ
deriving DecidableEq

/-- One reason string appended by `evaluate_retraining_need`, as a tagged
value carrying the numbers the source interpolates into the f-string
(float formatting itself is not modelled). -/
inductive Reason where
  | tooSoon
  | performanceBelow (rate threshold : ℚ)
  | dataDrift (score : ℚ)
  | highErrorRate (rate : ℚ)
  | responseTimeDegraded (t : ℚ)
deriving DecidableEq

/-- Constant part of the message each `Reason` renders to (the source
appends formatted numbers after the colon for all but the first). -/
def reasonText : Reason → String
  | .tooSoon => "Too soon since last retraining"
  | .performanceBelow _ _ => "Performance below threshold"
  | .dataDrift _ => "Significant data drift detected"
  | .highErrorRate _ => "High error rate"
  | .responseTimeDegraded _ => "Response time degraded"

/-- The `metrics_evaluated` sub-dict of an evaluation result. -/
structure MetricsEvaluated where
  successRate : ℚ
  driftScore : ℚ
  errorRate : ℚ
  avgResponseTime : ℚ
deriving DecidableEq

/-- Result dict of `evaluate_retraining_need`. The short-circuit branch
carries `time_since_last_hours` and no `metrics_evaluated`; the full
branch carries `metrics_evaluated` and no `time_since_last_hours`
(timestamp omitted: wall clock only). -/
structure EvalResult where
  shouldRetrain : Bool
  reasons : List Reason
  timeSinceLastHours : Option ℚ
  metricsEvaluated : Option MetricsEvaluated
deriving DecidableEq

/-- Mutable state of `RetrainingTrigger`: the bounded retraining history
and the `last_retraining` timestamp in seconds (None when unset). The
threshold attributes are the constants from `__init__` and are inlined. -/
structure TrigState where
  retrainingHistory : List EvalResult
  lastRetraining : Option ℚ
deriving DecidableEq

/-- Model of `RetrainingTrigger._record_retraining_event`. -/
def recordRetrainingEvent (st : TrigState) (e : EvalResult) : TrigState :=
  let h := st.retrainingHistory ++ [e]
  { st with retrainingHistory :=
      if 100 < h.length then h.drop (h.length - 100) else h }

/-- The four-check body of `evaluate_retraining_need`, reached when the
rate-limit short-circuit does not fire. -/
def evalChecks (st : TrigState) (metrics : MetricsSnapshot) (drift : DriftInput) :
    EvalResult × TrigState :=
  let successRate := metrics.successRatePercent / 100
  let c1 : Bool := successRate < (85 : ℚ)/100
  let rs1 : List Reason := if c1 then [.performanceBelow successRate ((85 : ℚ)/100)] else []
  let c2 : Bool := drift.driftDetected && ((3 : ℚ)/10 < drift.driftScore)
  let rs2 : List Reason := if c2 then [.dataDrift drift.driftScore] else []
  let c3 : Bool := (100 ≤ metrics.totalApiCalls)
    && ((15 : ℚ)/100 < (metrics.failedResponses : ℚ) / metrics.totalApiCalls)
  let rs3 : List Reason :=
    if c3 then [.highErrorRate ((metrics.failedResponses : ℚ) / metrics.totalApiCalls)] else []
  let c4 : Bool := (5 : ℚ) < metrics.avgResponseTimeSeconds
  let rs4 : List Reason := if c4 then [.responseTimeDegraded metrics.avgResponseTimeSeconds] else []
  let errorRate : ℚ :=
    if 0 < metrics.totalApiCalls then (metrics.failedResponses : ℚ) / metrics.totalApiCalls else 0
  let result : EvalResult :=
    { shouldRetrain := c1 || c2 || c3 || c4,
      reasons := rs1 ++ rs2 ++ rs3 ++ rs4,
      timeSinceLastHours := none,
      metricsEvaluated := some
        { successRate := successRate, driftScore := drift.driftScore,
          errorRate := errorRate, avgResponseTime := metrics.avgResponseTimeSeconds } }
  (result, if c1 || c2 || c3 || c4 then recordRetrainingEvent st result else st)

/-- Model of `RetrainingTrigger.evaluate_retraining_need`; `now` is the current
wall-clock time in seconds. -/
def evaluateRetrainingNeed (st : TrigState) (now : ℚ) (metrics : MetricsSnapshot)
    (drift : DriftInput) : EvalResult × TrigState :=
  match st.lastRetraining with
  | some t =>
    if (now - t) / 3600 < 24 then
      ({ shouldRetrain := false, reasons := [.tooSoon],
         timeSinceLastHours := some ((now - t) / 3600), metricsEvaluated := none }, st)
    else evalChecks st metrics drift
  | none => evalChecks st metrics drift

/-- C4: with a recorded last retraining less than 24 hours old, evaluate
short-circuits: should_retrain is false, the single reason is the literal
"Too soon since last retraining", no checks are evaluated (the result is
independent of the metrics and drift input and carries no
metrics_evaluated), and the state is unchanged. -/
theorem evaluate_too_soon_short_circuit (st : TrigState) (now t : ℚ)
    (metrics : MetricsSnapshot) (drift : DriftInput)
    (hset : st.lastRetraining = some t) (hlt : (now - t) / 3600 < 24) :
    evaluateRetrainingNeed st now metrics drift =
      ({ shouldRetrain := false, reasons := [.tooSoon],
         timeSinceLastHours := some ((now - t) / 3600), metricsEvaluated := none }, st) ∧
    ((evaluateRetrainingNeed st now metrics drift).1.reasons.map reasonText
      = ["Too soon since last retraining"]) := by
  constructor
  · simp only [evaluateRetrainingNeed, hset]
    rw [if_pos hlt]
  · simp only [evaluateRetrainingNeed, hset]
    rw [if_pos hlt]
    rfl

/-- Witness for C4 at a concrete clock and state. -/
theorem evaluate_too_soon_short_circuit_witness :
    evaluateRetrainingNeed { retrainingHistory := [], lastRetraining := some 0 } 3600
        { totalApiCalls := 0, successfulResponses := 0, failedResponses := 0,
          successRatePercent := 0, avgResponseTimeSeconds := 100,
          avgPropertiesReturned := 0, chromadbQueries := 0, queryTypes := [] }
        { driftDetected := true, driftScore := 1 } =
      ({ shouldRetrain := false, reasons := [.tooSoon],
         timeSinceLastHours := some ((3600 - 0) / 3600), metricsEvaluated := none },
       { retrainingHistory := [], lastRetraining := some 0 }) :=
  (evaluate_too_soon_short_circuit _ 3600 0 _ _ rfl (by norm_num)).1

lemma mem_ite_singleton {α : Type} (c : Prop) [Decidable c] (a x : α) :
    (x ∈ (if c then [a] else [])) ↔ (c ∧ x = a) := by
  split <;> simp_all

lemma evalChecks_characterization (st : TrigState) (m : MetricsSnapshot) (d : DriftInput) :
    ((evalChecks st m d).1.shouldRetrain = true ↔
      (m.successRatePercent / 100 < (85 : ℚ)/100
        ∨ (d.driftDetected = true ∧ (3 : ℚ)/10 < d.driftScore)
        ∨ (100 ≤ m.totalApiCalls
            ∧ (15 : ℚ)/100 < (m.failedResponses : ℚ) / m.totalApiCalls)
        ∨ (5 : ℚ) < m.avgResponseTimeSeconds)) ∧
    ((Reason.performanceBelow (m.successRatePercent / 100) ((85 : ℚ)/100)
        ∈ (evalChecks st m d).1.reasons)
      ↔ m.successRatePercent / 100 < (85 : ℚ)/100) ∧
    ((Reason.dataDrift d.driftScore ∈ (evalChecks st m d).1.reasons)
      ↔ (d.driftDetected = true ∧ (3 : ℚ)/10 < d.driftScore)) ∧
    ((Reason.highErrorRate ((m.failedResponses : ℚ) / m.totalApiCalls)
        ∈ (evalChecks st m d).1.reasons)
      ↔ (100 ≤ m.totalApiCalls
          ∧ (15 : ℚ)/100 < (m.failedResponses : ℚ) / m.totalApiCalls)) ∧
    ((Reason.responseTimeDegraded m.avgResponseTimeSeconds
        ∈ (evalChecks st m d).1.reasons)
      ↔ (5 : ℚ) < m.avgResponseTimeSeconds) := by
  refine ⟨?_, ?_, ?_, ?_, ?_⟩ <;>
    simp [evalChecks, List.mem_append, mem_ite_singleton, Bool.or_eq_true,
      Bool.and_eq_true, decide_eq_true_eq, and_assoc, or_assoc]

/-- C5: when the rate-limit short-circuit does not apply, should_retrain
is true iff at least one of the four checks triggers, each triggered check
contributes exactly its own reason, and in particular a fully healthy
snapshot (success 100 percent, no drift, no failures, 1s latency) yields
should_retrain false with an empty reasons list. -/
theorem evaluate_checks_disjunction (st : TrigState) (now : ℚ)
    (m : MetricsSnapshot) (d : DriftInput)
    (h : st.lastRetraining = none
      ∨ ∃ t, st.lastRetraining = some t ∧ 24 ≤ (now - t) / 3600) :
    (((evaluateRetrainingNeed st now m d).1.shouldRetrain = true ↔
      (m.successRatePercent / 100 < (85 : ℚ)/100
        ∨ (d.driftDetected = true ∧ (3 : ℚ)/10 < d.driftScore)
        ∨ (100 ≤ m.totalApiCalls
            ∧ (15 : ℚ)/100 < (m.failedResponses : ℚ) / m.totalApiCalls)
        ∨ (5 : ℚ) < m.avgResponseTimeSeconds)) ∧
    ((Reason.performanceBelow (m.successRatePercent / 100) ((85 : ℚ)/100)
        ∈ (evaluateRetrainingNeed st now m d).1.reasons)
      ↔ m.successRatePercent / 100 < (85 : ℚ)/100) ∧
    ((Reason.dataDrift d.driftScore ∈ (evaluateRetrainingNeed st now m d).1.reasons)
      ↔ (d.driftDetected = true ∧ (3 : ℚ)/10 < d.driftScore)) ∧
    ((Reason.highErrorRate ((m.failedResponses : ℚ) / m.totalApiCalls)
        ∈ (evaluateRetrainingNeed st now m d).1.reasons)
      ↔ (100 ≤ m.totalApiCalls
          ∧ (15 : ℚ)/100 < (m.failedResponses : ℚ) / m.totalApiCalls)) ∧
    ((Reason.responseTimeDegraded m.avgResponseTimeSeconds
        ∈ (evaluateRetrainingNeed st now m d).1.reasons)
      ↔ (5 : ℚ) < m.avgResponseTimeSeconds)) ∧
    ((evaluateRetrainingNeed { retrainingHistory := [], lastRetraining := none } 0
        { totalApiCalls := 10, successfulResponses := 10, failedResponses := 0,
          successRatePercent := 100, avgResponseTimeSeconds := 1,
          avgPropertiesReturned := 0, chromadbQueries := 10, queryTypes := [] }
        { driftDetected := false, driftScore := 0 }).1.shouldRetrain = false ∧
      (evaluateRetrainingNeed { retrainingHistory := [], lastRetraining := none } 0
        { totalApiCalls := 10, successfulResponses := 10, failedResponses := 0,
          successRatePercent := 100, avgResponseTimeSeconds := 1,
          avgPropertiesReturned := 0, chromadbQueries := 10, queryTypes := [] }
        { driftDetected := false, driftScore := 0 }).1.reasons = []) := by
  have heval : evaluateRetrainingNeed st now m d = evalChecks st m d := by
    rcases h with h | ⟨t, ht, hge⟩
    · simp only [evaluateRetrainingNeed, h]
    · simp only [evaluateRetrainingNeed, ht]
      rw [if_neg (not_lt.mpr hge)]
  constructor
  · rw [heval]
    exact evalChecks_characterization st m d
  · constructor <;>
      norm_num [evaluateRetrainingNeed, evalChecks]

/-- Witness for C5 at the fully healthy snapshot. -/
theorem evaluate_checks_disjunction_witness :
    (evaluateRetrainingNeed { retrainingHistory := [], lastRetraining := none } 0
        { totalApiCalls := 10, successfulResponses := 10, failedResponses := 0,
          successRatePercent := 100, avgResponseTimeSeconds := 1,
          avgPropertiesReturned := 0, chromadbQueries := 10, queryTypes := [] }
        { driftDetected := false, driftScore := 0 }).1.shouldRetrain = false ∧
    (evaluateRetrainingNeed { retrainingHistory := [], lastRetraining := none } 0
        { totalApiCalls := 10, successfulResponses := 10, failedResponses := 0,
          successRatePercent := 100, avgResponseTimeSeconds := 1,
          avgPropertiesReturned := 0, chromadbQueries := 10, queryTypes := [] }
        { driftDetected := false, driftScore := 0 }).1.reasons = [] :=
  (evaluate_checks_disjunction { retrainingHistory := [], lastRetraining := none } 0
    { totalApiCalls := 10, successfulResponses := 10, failedResponses := 0,
      successRatePercent := 100, avgResponseTimeSeconds := 1,
      avgPropertiesReturned := 0, chromadbQueries := 10, queryTypes := [] }
    { driftDetected := false, driftScore := 0 } (Or.inl rfl)).2

/-- Environment of `RetrainingTrigger.trigger_retraining_pipeline`:
whether `os.path.exists` finds the retraining script, and whether
launching it with `subprocess.Popen` raises. These are the only two
effectful outcomes the function branches on (`_save_retraining_job`
catches its own exceptions and never propagates). -/
structure PipeEnv where
  scriptExists : Bool
  launchRaises : Bool
deriving DecidableEq

/-- Model of `RetrainingTrigger.trigger_retraining_pipeline` restricted to its
return value and its effect on trigger state. An exception from the
launch reaches the outer `except` and returns False before
`last_retraining` is assigned; every other path — including the
missing-script path, which only logs a warning — falls through to the
assignment and returns True. -/
def triggerRetrainingPipeline (st : TrigState) (now : ℚ) (env : PipeEnv) :
    Bool × TrigState :=
  if env.scriptExists && env.launchRaises then (false, st)
  else (true, { st with lastRetraining := some now })

/-- C7 (counterexample): when the runner script cannot be located, the
function returns True (the job is recorded but not executed), not the
False the claim requires. -/
theorem trigger_pipeline_missing_script_returns_true :
    ¬ ((triggerRetrainingPipeline { retrainingHistory := [], lastRetraining := none } 0
        { scriptExists := false, launchRaises := true }).1 = false) := by
  simp [triggerRetrainingPipeline]

/-- C7 (amended): only an exception raised while launching the runner
yields False, leaving the trigger state unchanged; a missing script (and
a successful launch) return True and update last_retraining. -/
theorem trigger_pipeline_failure_semantics (st : TrigState) (now : ℚ) (env : PipeEnv) :
    (env.scriptExists = true → env.launchRaises = true →
      triggerRetrainingPipeline st now env = (false, st)) ∧
    ((env.scriptExists = false ∨ env.launchRaises = false) →
      triggerRetrainingPipeline st now env
        = (true, { st with lastRetraining := some now })) := by
  constructor
  · intro h1 h2
    simp [triggerRetrainingPipeline, h1, h2]
  · intro h
    rcases h with h | h <;> simp [triggerRetrainingPipeline, h]

/-- Witness for the amended C7 at concrete environments. -/
theorem trigger_pipeline_failure_semantics_witness :
    triggerRetrainingPipeline { retrainingHistory := [], lastRetraining := none } 0
        { scriptExists := true, launchRaises := true }
      = (false, { retrainingHistory := [], lastRetraining := none }) ∧
    triggerRetrainingPipeline { retrainingHistory := [], lastRetraining := none } 0
        { scriptExists := false, launchRaises := false }
      = (true, { retrainingHistory := [], lastRetraining := some 0 }) :=
  ⟨(trigger_pipeline_failure_semantics _ 0 _).1 rfl rfl,
   (trigger_pipeline_failure_semantics _ 0 _).2 (Or.inl rfl)⟩

/-! ## NotificationManager (src/backend/notifications/alerts.py) -/

/-- A dispatched notification dict (timestamp and the free-form data
payload omitted: no verified property reads them). -/
structure Notification where
  type : String
  severity : String
  message : String
deriving DecidableEq

/-- History update performed by
`NotificationManager._dispatch_notification`: append, then keep only the
newest 1000 entries. The logging and the optional external transports do
not touch the history. -/
def dispatchNotification (history : List Notification) (n : Notification) :
    List Notification :=
  let h := history ++ [n]
  if 1000 < h.length then h.drop (h.length - 1000) else h

/-- C9: the notification history never exceeds 1000 entries, and after
dispatching a sequence of 10000 notifications it holds exactly the newest
1000 in dispatch order (FIFO eviction of the oldest). -/
theorem notification_history_bounded (ns : List Notification) :
    ((ns.foldl dispatchNotification []).length ≤ 1000) ∧
    (ns.length = 10000 → ns.foldl dispatchNotification [] = ns.drop 9000) := by
  have he : ns.foldl dispatchNotification [] = ns.foldl (appendTrim 1000) [] := rfl
  constructor
  · rw [he, foldl_appendTrim 1000 ns [] (by simp), List.nil_append, List.length_drop]
    omega
  · intro hlen
    rw [he, foldl_appendTrim 1000 ns [] (by simp), List.nil_append, hlen]

/-- Witness for C9 at a concrete 10000-notification sequence. -/
theorem notification_history_bounded_witness :
    (List.replicate 10000 (⟨"t", "info", "m"⟩ : Notification)).foldl
        dispatchNotification []
      = (List.replicate 10000 (⟨"t", "info", "m"⟩ : Notification)).drop 9000 :=
  (notification_history_bounded _).2 (by rw [List.length_replicate])

end Mlops
